import Mathlib

/-
Verification of the geospatial tiling and satellite-visibility subsystem of
the `wavetrace` package (modules `wavetrace/utilities.py`, `wavetrace/main.py`,
`wavetrace/downloader.py`).

Conventions of the embedding:
- Python floats are modelled as rationals (ℚ); the geodetic look-angle
  computation, which is genuinely transcendental, is modelled over ℝ.
- A Python function that can raise is modelled as returning `Option`/`Except`;
  `none`/`.error` means an exception escapes.
- External collaborators (subprocess tools, HTTP services, the file system)
  are modelled as explicit environment parameters.
-/

set_option maxRecDepth 8000

attribute [local semireducible] Rat.sub Rat.add Rat.mul

namespace Wavetrace

/-! ## Decimal formatting and parsing

`utilities.get_tile_id` formats tile ids with Python's `'{:02d}'`/`'{:03d}'`
and `utilities.check_tile_id`/`utilities.get_bounds` parse them back with
`int(...)`.  We model the decimal formatting with a fuel-based digit expansion
(so every definition reduces in the kernel) and `int(...)` on the digit
substrings with a digits-only parser (the substrings arising here are pure
digit strings; on non-digit input `int` raises, our parser returns `none`). -/

/-- One decimal digit as a character. -/
def digitChar (n : Nat) : Char := Char.ofNat (48 + n)

/-- Decimal digits of a natural number, most significant first; the first
argument is fuel, always called with enough of it. -/
def decDigitsAux : Nat → Nat → List Char
  | 0, _ => []
  | fuel + 1, n =>
      if n < 10 then [digitChar n]
      else decDigitsAux fuel (n / 10) ++ [digitChar (n % 10)]

/-- Decimal digit string of a natural number (Python `str(n)` for `n ≥ 0`). -/
def decDigits (n : Nat) : List Char := decDigitsAux (n + 1) n

/-- Zero-pad a character list on the left to width `w`
(the padding behaviour of Python's `'{:0wd}'.format`). -/
def zfill (w : Nat) (cs : List Char) : List Char :=
  List.replicate (w - cs.length) '0' ++ cs

/-- Python `'{:02d}'.format n` for `n ≥ 0`. -/
def format02 (n : Nat) : List Char := zfill 2 (decDigits n)

/-- Python `'{:03d}'.format n` for `n ≥ 0`. -/
def format03 (n : Nat) : List Char := zfill 3 (decDigits n)

/-- The numeric value of a digit character, `none` on a non-digit. -/
def charDigit (c : Char) : Option Nat :=
  if 48 ≤ c.toNat ∧ c.toNat ≤ 57 then some (c.toNat - 48) else none

/-- Accumulator loop for `parseNat`. -/
def parseNatAux : List Char → Nat → Option Nat
  | [], acc => some acc
  | c :: cs, acc =>
      match charDigit c with
      | some d => parseNatAux cs (acc * 10 + d)
      | none => none

/-- Python `int(s)` restricted to nonempty all-digit strings; `none` models
the `ValueError`/failure on anything else (in particular the empty slice). -/
def parseNat (cs : List Char) : Option Nat :=
  if cs.isEmpty then none else parseNatAux cs 0

/-! ## TileAddress: `utilities.check_lonlat`, `get_tile_id`, `check_tile_id`,
`get_bounds`, and `downloader.get_srtm_tile_name` -/

/-- `utilities.check_lonlat lon lat`: `true` iff no `ValueError` is raised,
i.e. `-180 ≤ lon ≤ 180` and `-90 ≤ lat ≤ 90`. -/
def check_lonlat (lon lat : ℚ) : Bool :=
  decide ((-180 ≤ lon ∧ lon ≤ 180) ∧ (-90 ≤ lat ∧ lat ≤ 90))

/-- `utilities.get_tile_id lon lat`: the SRTM tile id of the 1°×1° cell whose
southwest corner is `(⌊lon⌋, ⌊lat⌋)`; `none` models the `ValueError` raised by
`check_lonlat` on out-of-range input.  Mirrors the source: magnitude
`abs(floor(·))`, hemisphere letter from the sign test `· >= 0`, latitude block
(2 digits) followed by longitude block (3 digits). -/
def get_tile_id (lon lat : ℚ) : Option String :=
  if ¬ check_lonlat lon lat then none else
  let aflon : Nat := (⌊lon⌋).natAbs
  let aflat : Nat := (⌊lat⌋).natAbs
  let lonBlock : List Char := (if 0 ≤ lon then 'E' else 'W') :: format03 aflon
  let latBlock : List Char := (if 0 ≤ lat then 'N' else 'S') :: format02 aflat
  some ⟨latBlock ++ lonBlock⟩

/-- `downloader.get_srtm_tile_name lon lat`: like `get_tile_id` but with
magnitude `int(ceil(abs(·)))` instead of `abs(floor(·))`. -/
def get_srtm_tile_name (lon lat : ℚ) : Option String :=
  if ¬ check_lonlat lon lat then none else
  let abs_lon : Nat := (⌈|lon|⌉).natAbs
  let abs_lat : Nat := (⌈|lat|⌉).natAbs
  let lonBlock : List Char := (if 0 ≤ lon then 'E' else 'W') :: format03 abs_lon
  let latBlock : List Char := (if 0 ≤ lat then 'N' else 'S') :: format02 abs_lat
  some ⟨latBlock ++ lonBlock⟩

/-- `utilities.check_tile_id t`: `true` iff no `ValueError` is raised, i.e.
`int(t[1:3])` and `int(t[4:])` parse, `t[0] ∈ {N, S}`, `t[3] ∈ {E, W}`,
`0 ≤ lat ≤ 90` and `0 ≤ lon ≤ 180` (the lower bounds are automatic for the
digit strings parsed here). -/
def check_tile_id (t : String) : Bool :=
  let cs := t.data
  match parseNat ((cs.drop 1).take 2), parseNat (cs.drop 4),
      cs.take 1, (cs.drop 3).take 1 with
  | some lat, some lon, [c0], [c3] =>
      decide ((c0 = 'N' ∨ c0 = 'S') ∧ (c3 = 'E' ∨ c3 = 'W') ∧
        lat ≤ 90 ∧ lon ≤ 180)
  | _, _, _, _ => false

/-- The padding `delta` computed inside `utilities.get_bounds`:
`0.5/3600` degrees (half an arc-second) if `high_definition`, else `1.5/3600`
degrees.  `0.5/3600 = mkRat 1 7200` and `1.5/3600 = mkRat 1 2400`; `mkRat` is
used so that the definition evaluates inside the kernel. -/
def padding (high_definition : Bool) : ℚ :=
  if high_definition then mkRat 1 7200 else mkRat 1 2400

/-- `utilities.get_bounds t high_definition`: checks the tile id, reads the
southwest corner back from the two blocks (`t[:3]` and `t[3:]`, sign from the
hemisphere letter) and returns
`[min_lon - δ, min_lat - δ, min_lon + 1 + δ, min_lat + 1 + δ]` where
`δ = padding high_definition`.
`none` models the `ValueError` from `check_tile_id`. -/
def get_bounds (t : String) (high_definition : Bool) : Option (List ℚ) :=
  if ¬ check_tile_id t then none else
  let cs := t.data
  let latMag : ℚ := ((parseNat ((cs.take 3).drop 1)).getD 0 : Nat)
  let lonMag : ℚ := ((parseNat (cs.drop 4)).getD 0 : Nat)
  let min_lat : ℚ := if cs.take 1 = ['N'] then latMag else -latMag
  let min_lon : ℚ := if (cs.drop 3).take 1 = ['E'] then lonMag else -lonMag
  let delta : ℚ := padding high_definition
  some [min_lon - delta, min_lat - delta, min_lon + 1 + delta,
    min_lat + 1 + delta]

/-! ## TileCover: `utilities.build_polygon`, `compute_intersecting_tiles` -/

/-- `utilities.build_polygon tile_id` is `box(*get_bounds(tile_id))` with the
default `high_definition=False`; we keep the rectangle as its bounds list
`[min_lon, min_lat, max_lon, max_lat]`.  `none` models the `ValueError`
raised on an invalid tile id. -/
def build_polygon (tile_id : String) : Option (List ℚ) :=
  get_bounds tile_id false

/-- `utilities.compute_intersecting_tiles geometries tile_ids`.  Shapely
geometries and the `poly.intersects(geom)` test are external collaborators,
so the geometry type `G` and the intersection test against a tile footprint
rectangle are parameters.  `set(tile_ids)` is modelled as `List.dedup`
(Python's set iteration order is unspecified; every property proved below is
order-independent because the result is sorted), the inner geometry loop with
its `break` as `List.any`, and `sorted` as insertion sort by the
lexicographic string order.  `none` models a `ValueError` escaping from
`build_polygon` on an invalid candidate tile id. -/
def compute_intersecting_tiles {G : Type} (intersects : List ℚ → G → Bool)
    (geometries : List G) (tile_ids : List String) : Option (List String) :=
  if ∀ tid ∈ tile_ids.dedup, (build_polygon tid).isSome then
    some ((List.insertionSort (· ≤ ·) ((tile_ids.dedup).filter
      (fun tid => geometries.any
        (fun geom => intersects ((build_polygon tid).getD []) geom)))))
  else none

/-! ## RasterPartitioner: `main.partition` -/

/-- The per-axis spans computed by `main.partition`:
`q, r = divmod(d, n)` followed by
`[(i*q, q) for i in range(n - 1)] + [((n - 1)*q, q + r)]`. -/
def axisSpans (d n : Nat) : List (Nat × Nat) :=
  let q := d / n
  let r := d % n
  ((List.range (n - 1)).map (fun i => (i * q, q))) ++ [((n - 1) * q, q + r)]

/-- `main.partition width height n`: the row-major list of sub-window
`(x_offset, y_offset, x_size, y_size)` tuples, outer loop over the height
spans, inner loop over the width spans.  (In Python, `n = 0` would raise
`ZeroDivisionError` inside `divmod`; every claim assumes `n ≥ 1`.) -/
def partition (width height n : Nat) : List (Nat × Nat × Nat × Nat) :=
  (axisSpans height n).flatMap (fun yspan =>
    (axisSpans width n).map (fun xspan =>
      (xspan.1, yspan.1, xspan.2, yspan.2)))

/-! ## The geoid-height lookup: `utilities.get_geoid_height` and its verbatim
copy `main.get_geoid_height` (they differ only in the URL scheme) -/

/-- Outcome of one HTTP GET against the GeoidEval service. -/
inductive GeoidResponse : Type
  | notOk : GeoidResponse
  | okUnparsable : GeoidResponse
  | okValue : ℚ → GeoidResponse
deriving DecidableEq

/-- The two `ValueError`s raised by `get_geoid_height`:
`'Failed to parse data from'` and `'Failed to download data from'`. -/
inductive GeoidError : Type
  | parseFailure : GeoidError
  | downloadFailure : GeoidError
deriving DecidableEq

/-- The `for i in range(num_tries)` loop of `get_geoid_height`, starting at
attempt `i` with `fuel` attempts left; `service j` is the response to the
`j`-th request (0-based, the query coordinates being fixed).  A non-OK status
hits `continue`; an OK but unparsable body raises the parse `ValueError` at
once; an OK parsable body returns its value; a completed loop raises the
download `ValueError`.  Returns the number of requests issued, paired with
the outcome. -/
def geoidLoop (service : Nat → GeoidResponse) :
    Nat → Nat → Nat × Except GeoidError ℚ
  | _, 0 => (0, .error .downloadFailure)
  | i, fuel + 1 =>
      match service i with
      | .notOk =>
          let rest := geoidLoop service (i + 1) fuel
          (rest.1 + 1, rest.2)
      | .okUnparsable => (1, .error .parseFailure)
      | .okValue v => (1, .ok v)

/-- `get_geoid_height` for a fixed `(lon, lat)`: run the request loop
`num_tries` times from attempt 0. -/
def get_geoid_height (service : Nat → GeoidResponse) (num_tries : Nat) :
    Nat × Except GeoidError ℚ :=
  geoidLoop service 0 num_tries

/-! ## SatelliteVisibilityPipeline: `main.compute_satellite_los` -/

/-- Python exception classes arising in `compute_satellite_los`. -/
inductive PyError : Type
  | typeError
  | calledProcessError
  | valueError
deriving DecidableEq

/-- The top-level functions defined by `wavetrace/utilities.py`. -/
def utilities_defs : List String :=
  ["time_it", "rm_paths", "get_secret", "check_lonlat", "check_tile_id",
   "get_bounds", "build_polygon", "build_feature", "extract_tile_id",
   "get_tile_id", "compute_intersecting_tiles", "get_center", "partition",
   "get_geoid_height"]

/-- The attributes of the `utilities` module (imported as `ut`) referenced by
the body of `main.compute_satellite_los`. -/
def compute_satellite_los_ut_refs : List String :=
  ["get_tile_id", "gdalinfo", "rm_paths"]

/-- Number of positional arguments in the call `ut.get_tile_id(in_path)`
(main.py line 714). -/
def get_tile_id_call_args : Nat := 1

/-- Number of required positional parameters of
`utilities.get_tile_id(lon, lat)`. -/
def get_tile_id_params : Nat := 2

/-- Environment of a run of the satellite line-of-sight pipeline: the shape
of the input and the behaviour of every external collaborator. -/
structure LosEnv : Type where
  isZip : Bool
  width : Nat
  height : Nat
  n : Nat
  make_shp : Bool
  translateOk : Nat → Bool
  locationOk : Nat → Bool
  geoidOk : Nat → Bool
  demOk : Nat → Bool
  buildvrtOk : Bool
  mergeOk : Bool
  polygonizeOk : Bool

/-- File-system facts tracked across a pipeline run. -/
structure LosState : Type where
  extracted : Bool
  extractedDeleted : Bool
  tmpCreated : Bool
  tmpDeleted : Bool
deriving DecidableEq

/-- The per-subtile loop of `compute_satellite_los` (lines 735–759), starting
at subtile `i` with `fuel` subtiles left: `gdal_translate -srcwin`, the
center lookup, `gdallocationinfo`, `get_geoid_height`, `gdaldem hillshade`;
any `subprocess.run(..., check=True)` failure raises
`CalledProcessError`, a geoid lookup failure raises `ValueError`, and
either aborts the loop.  The loop touches only files inside the temporary
directory, so it changes no tracked file-system fact. -/
def losLoop (env : LosEnv) : Nat → Nat → Option PyError
  | _, 0 => none
  | i, fuel + 1 =>
      if ¬ env.translateOk i then some .calledProcessError
      else if ¬ env.locationOk i then some .calledProcessError
      else if ¬ env.geoidOk i then some .valueError
      else if ¬ env.demOk i then some .calledProcessError
      else losLoop env (i + 1) fuel

/-- Lines 719–786 of `main.compute_satellite_los`: the pipeline body that
follows the `ut.get_tile_id(in_path)` call — extraction of a zipped tile,
creation of the temporary sub-window directory (`tempfile.mkdtemp`), the
per-subtile loop over `partition(width, height, n)`, the `gdalbuildvrt` and
`gdal_translate` merge, the move of the merged raster, the clean-up
(`ut.rm_paths(tmp_path)`; `f.unlink()` if the input was a zip), and the
optional `gdal_polygonize.py` call, in that order.  The raster-info lookup
(the `ut.gdalinfo` the source references but `utilities.py` never defines)
is the collaborator reporting `env.width`/`env.height`.  Returns the
escaping error (`none` on normal return) and the file-system facts at
exit. -/
def satellite_los_pipeline (env : LosEnv) : Option PyError × LosState :=
  let st : LosState :=
    { extracted := env.isZip, extractedDeleted := false,
      tmpCreated := true, tmpDeleted := false }
  match losLoop env 0 (partition env.width env.height env.n).length with
  | some e => (some e, st)
  | none =>
      if ¬ env.buildvrtOk then (some .calledProcessError, st)
      else if ¬ env.mergeOk then (some .calledProcessError, st)
      else
        let st' : LosState :=
          { st with tmpDeleted := true, extractedDeleted := env.isZip }
        if env.make_shp ∧ ¬ env.polygonizeOk then
          (some .calledProcessError, st')
        else (none, st')

/-- `main.compute_satellite_los` as written: its first statement after the
`Path` constructors is `tile_id = ut.get_tile_id(in_path)` (line 714), a call
passing `get_tile_id_call_args = 1` positional argument to a function that
requires `get_tile_id_params = 2` — in Python a `TypeError` raised before the
call's body runs.  Only if that call could bind would the pipeline body be
reached. -/
def compute_satellite_los (env : LosEnv) : Option PyError × LosState :=
  if get_tile_id_call_args = get_tile_id_params then
    satellite_los_pipeline env
  else
    (some .typeError,
      { extracted := false, extractedDeleted := false,
        tmpCreated := false, tmpDeleted := false })

/-- An environment in which the input is a zipped 10×10 tile, `n = 3`,
`make_shp` is off (its default), every external tool succeeds and the geoid
lookup fails on every sub-window. -/
def geoidFailEnv : LosEnv :=
  { isZip := true, width := 10, height := 10, n := 3, make_shp := false,
    translateOk := fun _ => true, locationOk := fun _ => true,
    geoidOk := fun _ => false, demOk := fun _ => true,
    buildvrtOk := true, mergeOk := true, polygonizeOk := true }

/-! ## LookAngle: `main.compute_look_angles`

The geodetic computation is transcendental, so this part of the embedding
lives over `ℝ`; Python's `math.atan2 y x` is the angle of the point `(x, y)`
in `(-π, π]`, i.e. `Complex.arg` of `x + y*I`. -/

/-- Python's `math.atan2 y x`. -/
noncomputable def atan2 (y x : ℝ) : ℝ := Complex.arg ⟨x, y⟩

/-- Python's `math.radians`. -/
noncomputable def radians (x : ℝ) : ℝ := x * Real.pi / 180

/-- Python's `math.degrees`. -/
noncomputable def degrees (x : ℝ) : ℝ := x * 180 / Real.pi

/-- `constants.WGS84_A`, the WGS84 semimajor axis in meters. -/
def WGS84_A : ℝ := 6378137

/-- `constants.WGS84_F`, the WGS84 flattening. -/
noncomputable def WGS84_F : ℝ := 1 / 298.257223563

/-- `constants.WGS84_E2 = 2*WGS84_F - WGS84_F**2`. -/
noncomputable def WGS84_E2 : ℝ := 2 * WGS84_F - WGS84_F ^ 2

/-- `constants.R_S`, the geostationary orbital radius in meters. -/
def R_S : ℝ := 42164000

/-- Lines 630–657 of `main.compute_look_angles`: the east, north, up
coordinates of the satellite S relative to the ground point P. -/
noncomputable def look_enu (lon lat height satellite_lon : ℝ) : ℝ × ℝ × ℝ :=
  let lam := radians lon
  let phi := radians lat
  let h := height
  let lam_s := radians satellite_lon
  let r := R_S
  let a := WGS84_A
  let e2 := WGS84_E2
  let N := a / Real.sqrt (1 - e2 * Real.sin phi ^ 2)
  let x_p := (N + h) * Real.cos lam * Real.cos phi
  let y_p := (N + h) * Real.sin lam * Real.cos phi
  let z_p := (N * (1 - e2) + h) * Real.sin phi
  let x_s := r * Real.cos lam_s
  let y_s := r * Real.sin lam_s
  let z_s := (0 : ℝ)
  let x := x_s - x_p
  let y := y_s - y_p
  let z := z_s - z_p
  let e := -x * Real.sin lam + y * Real.cos lam
  let n := -x * Real.sin phi * Real.cos lam - y * Real.sin phi * Real.sin lam +
    z * Real.cos phi
  let u := x * Real.cos phi * Real.cos lam + y * Real.cos phi * Real.sin lam +
    z * Real.sin phi
  (e, n, u)

/-- Lines 659–668 of `main.compute_look_angles`: azimuth
`alp = atan2(e, n)`, elevation `nu = atan2(u, sqrt(e**2 + n**2))`, `2*pi`
added to a negative azimuth, both converted to degrees. -/
noncomputable def compute_look_angles (lon lat height satellite_lon : ℝ) :
    ℝ × ℝ :=
  let enu := look_enu lon lat height satellite_lon
  let alp := atan2 enu.1 enu.2.1
  let nu := atan2 enu.2.2 (Real.sqrt (enu.1 ^ 2 + enu.2.1 ^ 2))
  let alp' := if alp < 0 then alp + 2 * Real.pi else alp
  (degrees alp', degrees nu)

/-! ## Shared lemmas -/

/-- Bridge between the spec's decimal literal `27.5` and its kernel-computable
`mkRat` form. -/
theorem q_27_5 : (27.5 : ℚ) = mkRat 55 2 := by
  norm_num [Rat.mkRat_eq_div]

/-- Bridge for the literal `3.64`. -/
theorem q_3_64 : (3.64 : ℚ) = mkRat 91 25 := by
  norm_num [Rat.mkRat_eq_div]

/-- The high-definition padding is `0.5/3600` degrees. -/
theorem padding_true_eq : padding true = (0.5 : ℚ) / 3600 := by
  norm_num [padding, Rat.mkRat_eq_div]

/-- The standard-definition padding is `1.5/3600` degrees. -/
theorem padding_false_eq : padding false = (1.5 : ℚ) / 3600 := by
  norm_num [padding, Rat.mkRat_eq_div]

/-- Both paddings are strictly positive. -/
theorem padding_pos (hd : Bool) : 0 < padding hd := by
  cases hd <;> decide

/-- `'{:02d}'` formatting of `m ≤ 90` yields exactly two characters and
`int(...)` parses them back to `m`. -/
theorem format02_roundtrip : ∀ m : Nat, m < 91 →
    (format02 m).length = 2 ∧ parseNat (format02 m) = some m := by decide

/-- `'{:03d}'` formatting of `m ≤ 180` yields exactly three characters and
`int(...)` parses them back to `m`. -/
theorem format03_roundtrip : ∀ m : Nat, m < 181 →
    (format03 m).length = 3 ∧ parseNat (format03 m) = some m := by decide

/-- A rational in `[-n, n]` has floor of magnitude at most `n`. -/
theorem floor_natAbs_le (x : ℚ) (n : ℕ) (hlo : -(n : ℚ) ≤ x) (hhi : x ≤ n) :
    (⌊x⌋).natAbs ≤ n := by
  have hub : ⌊x⌋ ≤ (n : ℤ) := by simpa using Int.floor_le_floor hhi
  have hlb : -(n : ℤ) ≤ ⌊x⌋ := by
    rw [Int.le_floor]; push_cast; exact hlo
  omega

/-- Cast of `natAbs` for a nonnegative integer. -/
theorem cast_natAbs_of_nonneg (z : ℤ) (h : 0 ≤ z) :
    ((z.natAbs : ℚ)) = (z : ℚ) := by
  rw [Int.cast_natAbs, abs_of_nonneg h]

/-- Cast of `natAbs` for a nonpositive integer. -/
theorem cast_natAbs_of_nonpos (z : ℤ) (h : z ≤ 0) :
    ((z.natAbs : ℚ)) = -(z : ℚ) := by
  rw [Int.cast_natAbs, abs_of_nonpos h]
  push_cast
  ring

/-- On in-range input `get_tile_id` succeeds, returning the latitude
hemisphere letter and the zero-padded magnitude of `⌊lat⌋` followed by the
longitude hemisphere letter and the zero-padded magnitude of `⌊lon⌋`. -/
theorem get_tile_id_eq (lon lat : ℚ)
    (h1 : -180 ≤ lon) (h2 : lon ≤ 180) (h3 : -90 ≤ lat) (h4 : lat ≤ 90) :
    get_tile_id lon lat = some ⟨(if 0 ≤ lat then 'N' else 'S') ::
      (format02 ((⌊lat⌋).natAbs) ++ (if 0 ≤ lon then 'E' else 'W') ::
        format03 ((⌊lon⌋).natAbs))⟩ := by
  have hc : check_lonlat lon lat = true := by
    simp only [check_lonlat, decide_eq_true_eq]
    exact ⟨⟨h1, h2⟩, h3, h4⟩
  simp [get_tile_id, hc]

/-- Evaluation of `get_bounds` on an explicit well-formed 7-character tile
id. -/
theorem get_bounds_explicit (hN hE a b c d e : Char) (la lo : ℕ) (hd : Bool)
    (hP2 : parseNat [a, b] = some la) (hP3 : parseNat [c, d, e] = some lo)
    (hNs : hN = 'N' ∨ hN = 'S') (hEs : hE = 'E' ∨ hE = 'W')
    (hla : la ≤ 90) (hlo : lo ≤ 180) :
    get_bounds ⟨hN :: ([a, b] ++ hE :: [c, d, e])⟩ hd = some
      [(if hE = 'E' then (lo : ℚ) else -(lo : ℚ)) - padding hd,
       (if hN = 'N' then (la : ℚ) else -(la : ℚ)) - padding hd,
       (if hE = 'E' then (lo : ℚ) else -(lo : ℚ)) + 1 + padding hd,
       (if hN = 'N' then (la : ℚ) else -(la : ℚ)) + 1 + padding hd] := by
  have hnorm : (⟨hN :: ([a, b] ++ hE :: [c, d, e])⟩ : String) =
      ⟨[hN, a, b, hE, c, d, e]⟩ := rfl
  rw [hnorm]
  have hcheck : check_tile_id ⟨[hN, a, b, hE, c, d, e]⟩ = true := by
    simp [check_tile_id, hP2, hP3]
    exact ⟨hNs, hEs, hla, hlo⟩
  simp [get_bounds, hcheck, hP2, hP3]

/-- Composing `get_bounds` with `get_tile_id` on in-range input: the result is
the 1°×1° cell at the floored coordinates, padded by `padding hd` on every
side. -/
theorem get_bounds_get_tile_id (lon lat : ℚ) (hd : Bool)
    (h1 : -180 ≤ lon) (h2 : lon ≤ 180) (h3 : -90 ≤ lat) (h4 : lat ≤ 90) :
    ∃ t, get_tile_id lon lat = some t ∧
      get_bounds t hd = some
        [(⌊lon⌋ : ℚ) - padding hd, (⌊lat⌋ : ℚ) - padding hd,
         (⌊lon⌋ : ℚ) + 1 + padding hd, (⌊lat⌋ : ℚ) + 1 + padding hd] := by
  have hlatA : (⌊lat⌋).natAbs ≤ 90 :=
    floor_natAbs_le lat 90 (by exact_mod_cast h3) (by exact_mod_cast h4)
  have hlonA : (⌊lon⌋).natAbs ≤ 180 :=
    floor_natAbs_le lon 180 (by exact_mod_cast h1) (by exact_mod_cast h2)
  obtain ⟨hL2, hP2⟩ := format02_roundtrip _ (Nat.lt_succ_of_le hlatA)
  obtain ⟨hL3, hP3⟩ := format03_roundtrip _ (Nat.lt_succ_of_le hlonA)
  obtain ⟨a, b, hab⟩ := List.length_eq_two.mp hL2
  obtain ⟨c, d, e, hcde⟩ := List.length_eq_three.mp hL3
  rw [hab] at hP2
  rw [hcde] at hP3
  rw [get_tile_id_eq lon lat h1 h2 h3 h4, hab, hcde]
  refine ⟨_, rfl, ?_⟩
  rcases le_or_lt 0 lat with hlat0 | hlat0 <;>
      rcases le_or_lt 0 lon with hlon0 | hlon0
  · rw [if_pos hlat0, if_pos hlon0,
      get_bounds_explicit 'N' 'E' a b c d e _ _ hd hP2 hP3 (Or.inl rfl)
        (Or.inl rfl) hlatA hlonA,
      cast_natAbs_of_nonneg _ (Int.floor_nonneg.mpr hlat0),
      cast_natAbs_of_nonneg _ (Int.floor_nonneg.mpr hlon0)]
    simp
  · rw [if_pos hlat0, if_neg hlon0.not_le,
      get_bounds_explicit 'N' 'W' a b c d e _ _ hd hP2 hP3 (Or.inl rfl)
        (Or.inr rfl) hlatA hlonA,
      cast_natAbs_of_nonneg _ (Int.floor_nonneg.mpr hlat0),
      cast_natAbs_of_nonpos _ (Int.floor_nonpos hlon0.le)]
    simp
  · rw [if_neg hlat0.not_le, if_pos hlon0,
      get_bounds_explicit 'S' 'E' a b c d e _ _ hd hP2 hP3 (Or.inr rfl)
        (Or.inl rfl) hlatA hlonA,
      cast_natAbs_of_nonpos _ (Int.floor_nonpos hlat0.le),
      cast_natAbs_of_nonneg _ (Int.floor_nonneg.mpr hlon0)]
    simp
  · rw [if_neg hlat0.not_le, if_neg hlon0.not_le,
      get_bounds_explicit 'S' 'W' a b c d e _ _ hd hP2 hP3 (Or.inr rfl)
        (Or.inr rfl) hlatA hlonA,
      cast_natAbs_of_nonpos _ (Int.floor_nonpos hlat0.le),
      cast_natAbs_of_nonpos _ (Int.floor_nonpos hlon0.le)]
    simp

/-! ## Claims C4–C7 -/

/-- Claim C4 (confirmed): for every lon in [-180, 180], lat in [-90, 90] and
either definition flag, the bounding box returned by
`get_bounds (get_tile_id lon lat)` contains the point `(lon, lat)`:
its `min_lon ≤ lon ≤ max_lon` and its `min_lat ≤ lat ≤ max_lat`. -/
theorem claim_C4_bounds_contain_point (lon lat : ℚ) (hd : Bool)
    (h1 : -180 ≤ lon) (h2 : lon ≤ 180) (h3 : -90 ≤ lat) (h4 : lat ≤ 90) :
    ∃ t mnlon mnlat mxlon mxlat,
      get_tile_id lon lat = some t ∧
      get_bounds t hd = some [mnlon, mnlat, mxlon, mxlat] ∧
      mnlon ≤ lon ∧ lon ≤ mxlon ∧ mnlat ≤ lat ∧ lat ≤ mxlat := by
  obtain ⟨t, ht, hb⟩ := get_bounds_get_tile_id lon lat hd h1 h2 h3 h4
  have hpad : 0 < padding hd := padding_pos hd
  have hflon : (⌊lon⌋ : ℚ) ≤ lon := Int.floor_le lon
  have hflat : (⌊lat⌋ : ℚ) ≤ lat := Int.floor_le lat
  have hlon1 : lon < (⌊lon⌋ : ℚ) + 1 := Int.lt_floor_add_one lon
  have hlat1 : lat < (⌊lat⌋ : ℚ) + 1 := Int.lt_floor_add_one lat
  exact ⟨t, _, _, _, _, ht, hb, by linarith, by linarith, by linarith,
    by linarith⟩

/-- Witness for C4: the tile of `(27.5, 3.64)` (here in `mkRat` form) with
the standard-definition flag contains the point. -/
theorem claim_C4_witness :
    ((-180 : ℚ) ≤ mkRat 55 2 ∧ (mkRat 55 2 : ℚ) ≤ 180 ∧
      (-90 : ℚ) ≤ mkRat 91 25 ∧ (mkRat 91 25 : ℚ) ≤ 90) ∧
    (∃ t mnlon mnlat mxlon mxlat,
      get_tile_id (mkRat 55 2) (mkRat 91 25) = some t ∧
      get_bounds t false = some [mnlon, mnlat, mxlon, mxlat] ∧
      mnlon ≤ mkRat 55 2 ∧ (mkRat 55 2 : ℚ) ≤ mxlon ∧
      mnlat ≤ mkRat 91 25 ∧ (mkRat 91 25 : ℚ) ≤ mxlat) :=
  ⟨⟨by decide, by decide, by decide, by decide⟩,
    claim_C4_bounds_contain_point (mkRat 55 2) (mkRat 91 25) false
      (by decide) (by decide) (by decide) (by decide)⟩

/-- Claim C5 (counterexample): the spec asserts
`tile_id_for(27.5, 3.64) = "N04E028"`, but `utilities.get_tile_id` returns
`"N03E027"` there. -/
theorem claim_C5_counterexample :
    get_tile_id (27.5 : ℚ) (3.64 : ℚ) = some "N03E027" ∧
    get_tile_id (27.5 : ℚ) (3.64 : ℚ) ≠ some "N04E028" := by
  rw [q_27_5, q_3_64]
  exact ⟨by decide, by decide⟩

/-- Claim C5 (amended): the four spec equalities hold of the ceil-based
`downloader.get_srtm_tile_name`, not of the floor-based
`utilities.get_tile_id`, which returns "N03E027", "S04E027", "N03W028",
"S04W028" at those four points — agreeing with the spec value only at
`(-27.5, -3.64)`. -/
theorem claim_C5_amended :
    (get_srtm_tile_name (27.5 : ℚ) (3.64 : ℚ) = some "N04E028" ∧
      get_srtm_tile_name (27.5 : ℚ) (-3.64 : ℚ) = some "S04E028" ∧
      get_srtm_tile_name (-27.5 : ℚ) (3.64 : ℚ) = some "N04W028" ∧
      get_srtm_tile_name (-27.5 : ℚ) (-3.64 : ℚ) = some "S04W028") ∧
    (get_tile_id (27.5 : ℚ) (3.64 : ℚ) = some "N03E027" ∧
      get_tile_id (27.5 : ℚ) (-3.64 : ℚ) = some "S04E027" ∧
      get_tile_id (-27.5 : ℚ) (3.64 : ℚ) = some "N03W028" ∧
      get_tile_id (-27.5 : ℚ) (-3.64 : ℚ) = some "S04W028") := by
  simp only [q_27_5, q_3_64]
  refine ⟨⟨?_, ?_, ?_, ?_⟩, ?_, ?_, ?_, ?_⟩ <;> decide

/-- Claim C6 (confirmed): on valid input `get_tile_id` floors each
coordinate and formats hemisphere letter + zero-padded two-digit latitude
magnitude + hemisphere letter + zero-padded three-digit longitude magnitude
(a 7-character id whose digit blocks parse back to the floored magnitudes);
in particular `get_tile_id 27.5 3.64 = "N03E027"`. -/
theorem claim_C6_floor_and_format (lon lat : ℚ)
    (h1 : -180 ≤ lon) (h2 : lon ≤ 180) (h3 : -90 ≤ lat) (h4 : lat ≤ 90) :
    (∃ cs : List Char,
      get_tile_id lon lat = some ⟨cs⟩ ∧
      cs = (if 0 ≤ lat then 'N' else 'S') :: (format02 ((⌊lat⌋).natAbs) ++
        (if 0 ≤ lon then 'E' else 'W') :: format03 ((⌊lon⌋).natAbs)) ∧
      cs.length = 7 ∧
      cs.take 1 = [if 0 ≤ lat then 'N' else 'S'] ∧
      parseNat ((cs.drop 1).take 2) = some ((⌊lat⌋).natAbs) ∧
      (cs.drop 3).take 1 = [if 0 ≤ lon then 'E' else 'W'] ∧
      parseNat (cs.drop 4) = some ((⌊lon⌋).natAbs)) ∧
    get_tile_id (27.5 : ℚ) (3.64 : ℚ) = some "N03E027" := by
  constructor
  · have hlatA : (⌊lat⌋).natAbs ≤ 90 :=
      floor_natAbs_le lat 90 (by exact_mod_cast h3) (by exact_mod_cast h4)
    have hlonA : (⌊lon⌋).natAbs ≤ 180 :=
      floor_natAbs_le lon 180 (by exact_mod_cast h1) (by exact_mod_cast h2)
    obtain ⟨hL2, hP2⟩ := format02_roundtrip _ (Nat.lt_succ_of_le hlatA)
    obtain ⟨hL3, hP3⟩ := format03_roundtrip _ (Nat.lt_succ_of_le hlonA)
    obtain ⟨a, b, hab⟩ := List.length_eq_two.mp hL2
    obtain ⟨c, d, e, hcde⟩ := List.length_eq_three.mp hL3
    refine ⟨_, get_tile_id_eq lon lat h1 h2 h3 h4, rfl, ?_, ?_, ?_, ?_⟩ <;>
      rw [hab, hcde] <;> rw [hab] at hP2 <;> rw [hcde] at hP3 <;>
      simp [hP2, hP3]
  · rw [q_27_5, q_3_64]
    decide

/-- Witness for C6 at `(lon, lat) = (27.5, 3.64)` in `mkRat` form. -/
theorem claim_C6_witness :
    ((-180 : ℚ) ≤ mkRat 55 2 ∧ (mkRat 55 2 : ℚ) ≤ 180 ∧
      (-90 : ℚ) ≤ mkRat 91 25 ∧ (mkRat 91 25 : ℚ) ≤ 90) ∧
    ((∃ cs : List Char,
      get_tile_id (mkRat 55 2) (mkRat 91 25) = some ⟨cs⟩ ∧
      cs = (if 0 ≤ (mkRat 91 25 : ℚ) then 'N' else 'S') ::
        (format02 ((⌊(mkRat 91 25 : ℚ)⌋).natAbs) ++
        (if 0 ≤ (mkRat 55 2 : ℚ) then 'E' else 'W') ::
          format03 ((⌊(mkRat 55 2 : ℚ)⌋).natAbs)) ∧
      cs.length = 7 ∧
      cs.take 1 = [if 0 ≤ (mkRat 91 25 : ℚ) then 'N' else 'S'] ∧
      parseNat ((cs.drop 1).take 2) = some ((⌊(mkRat 91 25 : ℚ)⌋).natAbs) ∧
      (cs.drop 3).take 1 = [if 0 ≤ (mkRat 55 2 : ℚ) then 'E' else 'W'] ∧
      parseNat (cs.drop 4) = some ((⌊(mkRat 55 2 : ℚ)⌋).natAbs)) ∧
    get_tile_id (27.5 : ℚ) (3.64 : ℚ) = some "N03E027") :=
  ⟨⟨by decide, by decide, by decide, by decide⟩,
    claim_C6_floor_and_format (mkRat 55 2) (mkRat 91 25)
      (by decide) (by decide) (by decide) (by decide)⟩

/-- Claim C7 (counterexample): `get_bounds "N03E027"` does not equal
`[27, 3, 28, 4]` under either supported flag — there is no no-padding
precision. -/
theorem claim_C7_counterexample :
    get_bounds "N03E027" false ≠ some [27, 3, 28, 4] ∧
    get_bounds "N03E027" true ≠ some [27, 3, 28, 4] :=
  ⟨by decide, by decide⟩

/-- Claim C7 (amended): `get_bounds` supports exactly two precisions, both
padded: with the high-definition flag the 1° box is expanded by `0.5/3600`
degrees on each of the four sides, with the default (standard-definition)
flag by `1.5/3600`; every successful result is an integer-cornered 1° box
expanded by the flag's nonzero padding, so no supported precision yields
exact 1-degree bounds (in particular not `[27, 3, 28, 4]` for "N03E027"). -/
theorem claim_C7_amended :
    get_bounds "N03E027" true = some
      [27 - (0.5 : ℚ)/3600, 3 - (0.5 : ℚ)/3600,
       28 + (0.5 : ℚ)/3600, 4 + (0.5 : ℚ)/3600] ∧
    get_bounds "N03E027" false = some
      [27 - (1.5 : ℚ)/3600, 3 - (1.5 : ℚ)/3600,
       28 + (1.5 : ℚ)/3600, 4 + (1.5 : ℚ)/3600] ∧
    ∀ (t : String) (hd : Bool) (bs : List ℚ), get_bounds t hd = some bs →
      ∃ mlon mlat : ℤ,
        bs = [(mlon : ℚ) - padding hd, (mlat : ℚ) - padding hd,
          (mlon : ℚ) + 1 + padding hd, (mlat : ℚ) + 1 + padding hd] ∧
        padding hd ≠ 0 := by
  refine ⟨?_, ?_, ?_⟩
  · rw [show (0.5 : ℚ)/3600 = padding true from padding_true_eq.symm]
    decide
  · rw [show (1.5 : ℚ)/3600 = padding false from padding_false_eq.symm]
    decide
  · intro t hd bs h
    simp only [get_bounds] at h
    split at h
    · exact absurd h (by simp)
    · refine ⟨if (t.data.drop 3).take 1 = ['E']
          then (((parseNat (t.data.drop 4)).getD 0 : ℕ) : ℤ)
          else -(((parseNat (t.data.drop 4)).getD 0 : ℕ) : ℤ),
        if t.data.take 1 = ['N']
          then (((parseNat ((t.data.take 3).drop 1)).getD 0 : ℕ) : ℤ)
          else -(((parseNat ((t.data.take 3).drop 1)).getD 0 : ℕ) : ℤ),
        ?_, (padding_pos hd).ne'⟩
      obtain rfl : bs = _ := (Option.some.inj h).symm
      split_ifs <;> push_cast <;> rfl

/-- Witness for the universally quantified part of the amended C7 at
`t = "N03E027"`, `hd = false`. -/
theorem claim_C7_witness :
    ∃ mlon mlat : ℤ,
      [(27 : ℚ) - mkRat 1 2400, 3 - mkRat 1 2400, 28 + mkRat 1 2400,
        4 + mkRat 1 2400] =
        [(mlon : ℚ) - padding false, (mlat : ℚ) - padding false,
          (mlon : ℚ) + 1 + padding false, (mlat : ℚ) + 1 + padding false] ∧
      padding false ≠ 0 :=
  claim_C7_amended.2.2 "N03E027" false _ (by decide)

/-! ## Claim C3: `main.partition` -/

/-- `axisSpans` produces one span per grid index. -/
theorem axisSpans_length (d n : Nat) (hn : 1 ≤ n) :
    (axisSpans d n).length = n := by
  simp [axisSpans]
  omega

/-- The `j`-th span starts at `j * (d / n)`; the last span absorbs the
remainder `d % n`. -/
theorem axisSpans_getElem (d n j : Nat) (hn : 1 ≤ n) (hj : j < n) :
    (axisSpans d n)[j]? =
      some (j * (d / n), if j = n - 1 then d / n + d % n else d / n) := by
  simp only [axisSpans, List.getElem?_append, List.length_map,
    List.length_range, List.getElem?_map]
  rcases Nat.lt_or_ge j (n - 1) with hlt | hge
  · rw [if_pos hlt, List.getElem?_range hlt]
    have hne : j ≠ n - 1 := by omega
    simp [hne]
  · have hj1 : j = n - 1 := by omega
    subst hj1
    rw [if_neg (lt_irrefl _)]
    simp

/-- Every span has positive size when `1 ≤ n ≤ d`. -/
theorem axisSpans_snd_pos (d n : Nat) (hn : 1 ≤ n) (hd : n ≤ d) :
    ∀ s ∈ axisSpans d n, 0 < s.2 := by
  intro s hs
  have hq : 0 < d / n := (Nat.one_le_div_iff (by omega)).mpr hd
  rw [axisSpans] at hs
  rcases List.mem_append.mp hs with hmem | hmem
  · obtain ⟨i, _, rfl⟩ := List.mem_map.mp hmem
    simpa using hq
  · simp only [List.mem_singleton] at hmem
    rw [hmem]
    simpa using by omega

/-- Length of a `flatMap` whose per-element lists all have length `m`. -/
theorem flatMap_length_const {α β : Type} (f : α → List β) (m : Nat)
    (L : List α) (hm : ∀ a ∈ L, (f a).length = m) :
    (L.flatMap f).length = L.length * m := by
  induction L with
  | nil => simp
  | cons a L ih =>
      simp only [List.flatMap_cons, List.length_append, List.length_cons]
      rw [hm a (by simp), ih (fun x hx => hm x (by simp [hx]))]
      ring

/-- Element lookup in a `flatMap` whose per-element lists all have length
`m`: index `m * i + j` addresses item `j` of block `i`. -/
theorem flatMap_getElem {α β : Type} (f : α → List β) (m : Nat)
    (L : List α) (hm : ∀ a ∈ L, (f a).length = m) (i j : Nat)
    (hj : j < m) :
    (L.flatMap f)[m * i + j]? = (L[i]?).bind (fun a => (f a)[j]?) := by
  induction L generalizing i with
  | nil => simp
  | cons a L ih =>
      have hlen : (f a).length = m := hm a (by simp)
      cases i with
      | zero =>
          simp only [List.flatMap_cons, List.getElem?_append, hlen,
            Nat.mul_zero, Nat.zero_add]
          rw [if_pos hj]
          simp
      | succ i' =>
          simp only [List.flatMap_cons, List.getElem?_append, hlen,
            Nat.mul_succ]
          have hc : ¬ (m * i' + m + j < m) := by omega
          rw [if_neg hc]
          have hidx : m * i' + m + j - m = m * i' + j := by omega
          rw [hidx, ih (fun x hx => hm x (by simp [hx]))]
          simp

/-- `countP` distributes over `flatMap` as a sum. -/
theorem countP_flatMap {α β : Type} (f : α → List β) (p : β → Bool)
    (L : List α) :
    (L.flatMap f).countP p = (L.map (fun a => (f a).countP p)).sum := by
  induction L with
  | nil => simp
  | cons a L ih => simp [List.flatMap_cons, List.countP_append, ih]

/-- Summing `if g a then k else 0` counts the hits times `k`. -/
theorem sum_map_ite {α : Type} (g : α → Bool) (k : Nat) (L : List α) :
    (L.map (fun a => if g a then k else 0)).sum = L.countP g * k := by
  induction L with
  | nil => simp
  | cons a L ih =>
      by_cases hg : g a
      · simp [hg, ih, List.countP_cons, Nat.add_mul]
        omega
      · simp [hg, ih, List.countP_cons]

/-- Counting a single value inside `List.range`. -/
theorem countP_range_eq (m t : Nat) :
    (List.range m).countP (fun i => decide (t = i)) =
      if t < m then 1 else 0 := by
  induction m with
  | zero => simp
  | succ m ih =>
      rw [List.range_succ, List.countP_append, ih]
      simp only [List.countP_cons, List.countP_nil]
      split_ifs <;> simp_all <;> omega

/-- A point `x` lies in the `i`-th span of width `q` exactly when
`x / q = i`. -/
theorem span_mem_iff (q x i : Nat) (hq : 0 < q) :
    (i * q ≤ x ∧ x < i * q + q) ↔ x / q = i := by
  constructor
  · rintro ⟨hlo, hhi⟩
    exact Nat.div_eq_of_lt_le hlo (by rw [Nat.succ_mul]; omega)
  · rintro rfl
    have hmod := Nat.div_add_mod x q
    have hlt : x % q < q := Nat.mod_lt _ hq
    constructor
    · rw [Nat.mul_comm]
      omega
    · rw [Nat.mul_comm]
      omega

/-- Each coordinate `x < d` lies in exactly one of the `n` axis spans. -/
theorem axisSpans_countP (d n x : Nat) (hn : 1 ≤ n) (hd : n ≤ d)
    (hx : x < d) :
    (axisSpans d n).countP
      (fun s => decide (s.1 ≤ x ∧ x < s.1 + s.2)) = 1 := by
  obtain ⟨m, rfl⟩ : ∃ m, n = m + 1 := ⟨n - 1, by omega⟩
  have hq : 0 < d / (m + 1) := (Nat.one_le_div_iff (by omega)).mpr hd
  have hmod := Nat.div_add_mod d (m + 1)
  rw [axisSpans, List.countP_append, List.countP_map]
  have hcongr : ∀ i ∈ List.range ((m + 1) - 1),
      (((fun s : Nat × Nat => decide (s.1 ≤ x ∧ x < s.1 + s.2)) ∘
        (fun i => (i * (d / (m + 1)), d / (m + 1)))) i = true ↔
      decide (x / (d / (m + 1)) = i) = true) := by
    intro i _
    simp only [Function.comp, decide_eq_true_eq]
    exact span_mem_iff (d / (m + 1)) x i hq
  rw [List.countP_congr hcongr, countP_range_eq]
  have hlast : ((m + 1) - 1) = m := by omega
  rw [hlast]
  simp only [List.countP_cons, List.countP_nil]
  have hsum : (m + 1) * (d / (m + 1)) = m * (d / (m + 1)) + d / (m + 1) :=
    Nat.succ_mul m (d / (m + 1))
  rcases Nat.lt_or_ge x (m * (d / (m + 1))) with hlt | hge
  · have hdiv : x / (d / (m + 1)) < m :=
      (Nat.div_lt_iff_lt_mul hq).mpr hlt
    have hnot : ¬ (m * (d / (m + 1)) ≤ x ∧
        x < m * (d / (m + 1)) + (d / (m + 1) + d % (m + 1))) := by
      omega
    rw [if_pos hdiv]
    simp [hnot]
  · have hdiv : ¬ (x / (d / (m + 1)) < m) := by
      have := (Nat.le_div_iff_mul_le hq).mpr hge
      omega
    have hyes : m * (d / (m + 1)) ≤ x ∧
        x < m * (d / (m + 1)) + (d / (m + 1) + d % (m + 1)) := by
      omega
    rw [if_neg hdiv]
    simp [hyes]

/-- Claim C3 (confirmed): for `n ≥ 1`, `width ≥ n`, `height ≥ n`,
`partition width height n` returns exactly `n²` windows in row-major order —
the window at index `n*i + j` is the `j`-th width span and `i`-th height
span, each axis divided into `n` spans of `floor(dim/n)` with the last span
absorbing the remainder; every window has strictly positive sizes; the
windows tile the `width × height` pixel rectangle with no gaps and no
overlaps (every pixel lies in exactly one window); and
`partition 10 10 3` has 9 windows with window 2 equal to `(6, 0, 4, 3)`. -/
theorem claim_C3_partition (width height n : Nat)
    (hn : 1 ≤ n) (hw : n ≤ width) (hh : n ≤ height) :
    (partition width height n).length = n * n ∧
    (∀ i j, i < n → j < n → (partition width height n)[n * i + j]? =
      some (j * (width / n), i * (height / n),
        (if j = n - 1 then width / n + width % n else width / n),
        (if i = n - 1 then height / n + height % n else height / n))) ∧
    (∀ win ∈ partition width height n, 0 < win.2.2.1 ∧ 0 < win.2.2.2) ∧
    (∀ x y, x < width → y < height →
      (partition width height n).countP (fun win =>
        decide (win.1 ≤ x ∧ x < win.1 + win.2.2.1 ∧
          win.2.1 ≤ y ∧ y < win.2.1 + win.2.2.2)) = 1) ∧
    (partition 10 10 3).length = 9 ∧
    (partition 10 10 3)[2]? = some (6, 0, 4, 3) := by
  have hinner : ∀ ys ∈ axisSpans height n,
      ((axisSpans width n).map
        (fun xs => (xs.1, ys.1, xs.2, ys.2))).length = n := by
    intro ys _
    simp [axisSpans_length width n hn]
  refine ⟨?_, ?_, ?_, ?_, by decide, by decide⟩
  · rw [partition, flatMap_length_const _ n _ hinner,
      axisSpans_length height n hn]
  · intro i j hi hj
    rw [partition, flatMap_getElem _ n _ hinner i j hj,
      axisSpans_getElem height n i hn hi]
    simp [axisSpans_getElem width n j hn hj]
  · intro win hwin
    rw [partition] at hwin
    obtain ⟨ys, hys, hwin⟩ := List.mem_flatMap.mp hwin
    obtain ⟨xs, hxs, rfl⟩ := List.mem_map.mp hwin
    exact ⟨axisSpans_snd_pos width n hn hw xs hxs,
      axisSpans_snd_pos height n hn hh ys hys⟩
  · intro x y hx hy
    rw [partition, countP_flatMap]
    have hmap : ∀ ys ∈ axisSpans height n,
        ((axisSpans width n).map
          (fun xs => (xs.1, ys.1, xs.2, ys.2))).countP
          (fun win => decide (win.1 ≤ x ∧ x < win.1 + win.2.2.1 ∧
            win.2.1 ≤ y ∧ y < win.2.1 + win.2.2.2)) =
        if decide (ys.1 ≤ y ∧ y < ys.1 + ys.2) then
          (axisSpans width n).countP
            (fun xs => decide (xs.1 ≤ x ∧ x < xs.1 + xs.2))
        else 0 := by
      intro ys _
      rw [List.countP_map]
      by_cases hy' : ys.1 ≤ y ∧ y < ys.1 + ys.2
      · rw [if_pos (by simpa using hy')]
        refine List.countP_congr ?_
        intro xs _
        simp [Function.comp, hy']
      · rw [if_neg (by simpa using hy')]
        rw [show (0 : Nat) = (axisSpans width n).countP (fun _ => false) by
          simp]
        refine List.countP_congr ?_
        intro xs _
        simp only [Function.comp]
        simp [hy']
    rw [List.map_congr_left hmap, sum_map_ite,
      axisSpans_countP height n y hn hh hy,
      axisSpans_countP width n x hn hw hx]

/-- Witness for C3 at `(width, height, n) = (10, 10, 3)`. -/
theorem claim_C3_witness :
    (1 ≤ 3 ∧ 3 ≤ 10) ∧ (partition 10 10 3).length = 3 * 3 :=
  ⟨⟨by decide, by decide⟩,
    (claim_C3_partition 10 10 3 (by decide) (by decide) (by decide)).1⟩

/-! ## Claim C8: `utilities.compute_intersecting_tiles` -/

/-- A valid tile id makes `get_bounds` (and hence `build_polygon`)
succeed. -/
theorem get_bounds_isSome_of_check (t : String) (hd : Bool)
    (hc : check_tile_id t = true) : (get_bounds t hd).isSome := by
  simp [get_bounds, hc]

/-- Claim C8 (confirmed): for every list of geometries and every list of
valid candidate tile ids, `compute_intersecting_tiles` returns a
duplicate-free list, sorted by the lexicographic string order, in which
every tile id is drawn from the candidates and every tile id's footprint
polygon (built via `build_polygon`) intersects at least one input
geometry. -/
theorem claim_C8_intersecting_tiles {G : Type} (intersects : List ℚ → G → Bool)
    (geometries : List G) (tile_ids : List String)
    (hvalid : ∀ tid ∈ tile_ids, check_tile_id tid = true) :
    ∃ l, compute_intersecting_tiles intersects geometries tile_ids = some l ∧
      l.Nodup ∧ l.Sorted (· ≤ ·) ∧
      ∀ tid ∈ l, tid ∈ tile_ids ∧ ∃ poly, build_polygon tid = some poly ∧
        ∃ geom ∈ geometries, intersects poly geom = true := by
  have hval' : ∀ tid ∈ tile_ids.dedup, (build_polygon tid).isSome :=
    fun tid htid =>
      get_bounds_isSome_of_check tid false
        (hvalid tid (List.mem_dedup.mp htid))
  rw [compute_intersecting_tiles, if_pos hval']
  refine ⟨_, rfl, ?_, List.sorted_insertionSort _ _, ?_⟩
  · exact ((List.perm_insertionSort _ _).nodup_iff).mpr
      ((List.nodup_dedup tile_ids).filter _)
  · intro tid htid
    have hmem := (List.perm_insertionSort (· ≤ ·)
      ((tile_ids.dedup).filter _)).mem_iff.mp htid
    obtain ⟨hdedup, hpred⟩ := List.mem_filter.mp hmem
    obtain ⟨poly, hpoly⟩ := Option.isSome_iff_exists.mp (hval' tid hdedup)
    obtain ⟨geom, hgeom, hint⟩ := List.any_eq_true.mp hpred
    refine ⟨List.mem_dedup.mp hdedup, poly, hpoly, geom, hgeom, ?_⟩
    rwa [hpoly, Option.getD_some] at hint

/-- Witness for C8: the all-intersecting test over two valid New Zealand
tile ids, one duplicated. -/
theorem claim_C8_witness :
    (∀ tid ∈ ["S36E174", "N03E027", "S36E174"], check_tile_id tid = true) ∧
    (∃ l, compute_intersecting_tiles (fun _ (_ : Unit) => true) [()]
        ["S36E174", "N03E027", "S36E174"] = some l ∧
      l.Nodup ∧ l.Sorted (· ≤ ·) ∧
      ∀ tid ∈ l, tid ∈ ["S36E174", "N03E027", "S36E174"] ∧
        ∃ poly, build_polygon tid = some poly ∧
          ∃ geom ∈ [()], (fun _ (_ : Unit) => true) poly geom = true) :=
  ⟨by decide,
    claim_C8_intersecting_tiles (fun _ (_ : Unit) => true) [()]
      ["S36E174", "N03E027", "S36E174"] (by decide)⟩

/-! ## Claim C9: `get_geoid_height` retry behaviour -/

/-- If every attempted request fails with a non-OK status the loop runs to
the end of its budget and raises the download failure. -/
theorem geoidLoop_allNotOk (service : Nat → GeoidResponse) :
    ∀ fuel i, (∀ j, j < fuel → service (i + j) = .notOk) →
      geoidLoop service i fuel = (fuel, .error .downloadFailure) := by
  intro fuel
  induction fuel with
  | zero => intro i _; rfl
  | succ fuel ih =>
      intro i hsv
      have h0 : service i = .notOk := by simpa using hsv 0 (by omega)
      have hrest : geoidLoop service (i + 1) fuel =
          (fuel, .error .downloadFailure) := by
        refine ih (i + 1) (fun j hj => ?_)
        have := hsv (j + 1) (by omega)
        rwa [show i + 1 + j = i + (j + 1) by omega]
      simp [geoidLoop, h0, hrest]

/-- Claim C9 (counterexample): with `num_tries = 3` and a service whose
first response is OK but malformed, `get_geoid_height` raises the parse
`ValueError` after a single request — the failure surfaces before the
3-attempt retry budget is exhausted. -/
theorem claim_C9_counterexample :
    get_geoid_height (fun _ => GeoidResponse.okUnparsable) 3 =
      (1, Except.error GeoidError.parseFailure) ∧ (1 : Nat) < 3 :=
  ⟨rfl, by decide⟩

/-- Claim C9 (amended): only the unreachable-service mode is retried: if
every response is non-OK the download `ValueError` surfaces after exactly
`num_tries` requests, but an OK response with malformed data raises the
parse `ValueError` immediately on the attempt where it occurs (here the
first), without exhausting the budget. -/
theorem claim_C9_amended (service : Nat → GeoidResponse) (num_tries : Nat)
    (hn : 1 ≤ num_tries) :
    ((∀ i, i < num_tries → service i = .notOk) →
      get_geoid_height service num_tries =
        (num_tries, Except.error GeoidError.downloadFailure)) ∧
    (service 0 = .okUnparsable →
      get_geoid_height service num_tries =
        (1, Except.error GeoidError.parseFailure)) := by
  constructor
  · intro hsv
    exact geoidLoop_allNotOk service num_tries 0
      (fun j hj => by simpa using hsv j hj)
  · intro h0
    obtain ⟨k, rfl⟩ : ∃ k, num_tries = k + 1 := ⟨num_tries - 1, by omega⟩
    simp [get_geoid_height, geoidLoop, h0]

/-- Witness for C9 (amended) with an always-unreachable service and
`num_tries = 3`: the failure surfaces after exactly 3 requests. -/
theorem claim_C9_witness :
    (1 : Nat) ≤ 3 ∧
    get_geoid_height (fun _ => GeoidResponse.notOk) 3 =
      (3, Except.error GeoidError.downloadFailure) :=
  ⟨by decide,
    (claim_C9_amended (fun _ => GeoidResponse.notOk) 3 (by decide)).1
      (fun _ _ => rfl)⟩

/-! ## Claims C1 and C2: `main.compute_satellite_los` -/

/-- Claim C1 (confirmed): for every input (path shape, satellite longitude,
output path, `n` — all collected in the environment), `compute_satellite_los`
raises a `TypeError` at its first step: `ut.get_tile_id(in_path)` passes one
positional argument to `utilities.get_tile_id(lon, lat)`, which requires
two.  At exit nothing has happened: no zip extraction, no temporary
directory, hence no external tool invocation.  Moreover the subsequent steps
reference `ut.gdalinfo`, an attribute `utilities.py` never defines. -/
theorem claim_C1_typeerror (env : LosEnv) :
    compute_satellite_los env =
      (some PyError.typeError,
        { extracted := false, extractedDeleted := false,
          tmpCreated := false, tmpDeleted := false }) ∧
    get_tile_id_call_args ≠ get_tile_id_params ∧
    "gdalinfo" ∈ compute_satellite_los_ut_refs ∧
    "gdalinfo" ∉ utilities_defs :=
  ⟨rfl, by decide, by decide, by decide⟩

/-- Claim C2 (counterexample): in the pipeline body, with a zipped 10×10
input, `n = 3`, every tool succeeding and the geoid lookup failing on the
first sub-window, the `ValueError` reaches the caller while the temporary
directory exists undeleted and the extracted file exists undeleted. -/
theorem claim_C2_counterexample :
    satellite_los_pipeline geoidFailEnv =
      (some PyError.valueError,
        { extracted := true, extractedDeleted := false,
          tmpCreated := true, tmpDeleted := false }) := rfl

/-- Claim C2 (amended): cleanup is not guaranteed on failing exit paths.
In the pipeline body of `compute_satellite_los` (the function as written
raises `TypeError` before reaching it, see C1): on normal completion the
temporary directory is deleted and the extracted file unlinked; but with
`make_shp` off (its default), every failing exit — an external tool exiting
nonzero or a geoid-height lookup failure — reaches the caller with the
temporary directory created but not deleted, and with any extracted file
not deleted. -/
theorem claim_C2_amended (env : LosEnv) :
    ((satellite_los_pipeline env).1 = none →
      (satellite_los_pipeline env).2.tmpDeleted = true ∧
      (satellite_los_pipeline env).2.extractedDeleted = env.isZip) ∧
    (env.make_shp = false → ∀ e, (satellite_los_pipeline env).1 = some e →
      (satellite_los_pipeline env).2.tmpCreated = true ∧
      (satellite_los_pipeline env).2.tmpDeleted = false ∧
      (satellite_los_pipeline env).2.extracted = env.isZip ∧
      (satellite_los_pipeline env).2.extractedDeleted = false) := by
  unfold satellite_los_pipeline
  cases hl : losLoop env 0 (partition env.width env.height env.n).length with
  | some e => simp
  | none =>
      cases hbs : env.buildvrtOk <;> cases hms : env.mergeOk <;>
        cases hsk : env.make_shp <;> cases hpk : env.polygonizeOk <;>
          simp [hbs, hms, hsk, hpk]

/-- Witness for the amended C2 at the concrete failing environment: the
error exits with the temporary directory and extracted file left behind. -/
theorem claim_C2_witness :
    (satellite_los_pipeline geoidFailEnv).2.tmpCreated = true ∧
    (satellite_los_pipeline geoidFailEnv).2.tmpDeleted = false ∧
    (satellite_los_pipeline geoidFailEnv).2.extracted = geoidFailEnv.isZip ∧
    (satellite_los_pipeline geoidFailEnv).2.extractedDeleted = false :=
  (claim_C2_amended geoidFailEnv).2 rfl PyError.valueError rfl

/-! ## Claim C10: `main.compute_look_angles` -/

/-- Claim C10 (confirmed): for every ground point and satellite longitude,
`compute_look_angles` returns a pair `(azimuth, elevation)` in degrees with
azimuth in `[0, 360)` — the degrees of `atan2(east, north)`, plus 360 when
that is negative — and elevation the degrees of
`atan2(up, sqrt(east² + north²))`, lying in `[-90, 90]`. -/
theorem claim_C10_look_angles (lon lat height satellite_lon : ℝ) :
    0 ≤ (compute_look_angles lon lat height satellite_lon).1 ∧
    (compute_look_angles lon lat height satellite_lon).1 < 360 ∧
    -90 ≤ (compute_look_angles lon lat height satellite_lon).2 ∧
    (compute_look_angles lon lat height satellite_lon).2 ≤ 90 ∧
    (compute_look_angles lon lat height satellite_lon).2 =
      degrees (atan2 (look_enu lon lat height satellite_lon).2.2
        (Real.sqrt ((look_enu lon lat height satellite_lon).1 ^ 2 +
          (look_enu lon lat height satellite_lon).2.1 ^ 2))) ∧
    ((compute_look_angles lon lat height satellite_lon).1 =
        degrees (atan2 (look_enu lon lat height satellite_lon).1
          (look_enu lon lat height satellite_lon).2.1) ∨
      (atan2 (look_enu lon lat height satellite_lon).1
          (look_enu lon lat height satellite_lon).2.1 < 0 ∧
        (compute_look_angles lon lat height satellite_lon).1 =
          degrees (atan2 (look_enu lon lat height satellite_lon).1
            (look_enu lon lat height satellite_lon).2.1) + 360)) := by
  have hpi : (0 : ℝ) < Real.pi := Real.pi_pos
  set enu := look_enu lon lat height satellite_lon with henu
  set alp := atan2 enu.1 enu.2.1 with halp
  set nu := atan2 enu.2.2 (Real.sqrt (enu.1 ^ 2 + enu.2.1 ^ 2)) with hnu
  have halp_le : alp ≤ Real.pi := by
    rw [halp]; exact Complex.arg_le_pi _
  have halp_gt : -Real.pi < alp := by
    rw [halp]; exact Complex.neg_pi_lt_arg _
  have hnu_abs : |nu| ≤ Real.pi / 2 := by
    rw [hnu]
    exact Complex.abs_arg_le_pi_div_two_iff.mpr (Real.sqrt_nonneg _)
  obtain ⟨hnu_lo, hnu_hi⟩ := abs_le.mp hnu_abs
  have heq : compute_look_angles lon lat height satellite_lon =
      (degrees (if alp < 0 then alp + 2 * Real.pi else alp), degrees nu) :=
    rfl
  rw [heq]
  have hdeg_mono : ∀ a b : ℝ, a ≤ b → degrees a ≤ degrees b := by
    intro a b hab
    unfold degrees
    gcongr
  have hdeg_smono : ∀ a b : ℝ, a < b → degrees a < degrees b := by
    intro a b hab
    unfold degrees
    gcongr
  have hdeg_pi : degrees Real.pi = 180 := by
    unfold degrees
    field_simp
  have hdeg_2pi : degrees (2 * Real.pi) = 360 := by
    unfold degrees
    field_simp
    ring
  have hdeg_pi2 : degrees (Real.pi / 2) = 90 := by
    unfold degrees
    field_simp
    ring
  have hdeg_neg_pi2 : degrees (-(Real.pi / 2)) = -90 := by
    unfold degrees
    field_simp
    ring
  have hdeg_zero : degrees 0 = 0 := by
    unfold degrees
    simp
  refine ⟨?_, ?_, ?_, ?_, rfl, ?_⟩
  · by_cases h0 : alp < 0
    · rw [if_pos h0, ← hdeg_zero]
      exact hdeg_mono _ _ (by linarith)
    · rw [if_neg h0, ← hdeg_zero]
      exact hdeg_mono _ _ (by linarith)
  · by_cases h0 : alp < 0
    · rw [if_pos h0, ← hdeg_2pi]
      exact hdeg_smono _ _ (by linarith)
    · rw [if_neg h0]
      calc degrees alp ≤ 180 := hdeg_pi ▸ hdeg_mono _ _ halp_le
        _ < 360 := by norm_num
  · rw [← hdeg_neg_pi2]
    exact hdeg_mono _ _ hnu_lo
  · rw [← hdeg_pi2]
    exact hdeg_mono _ _ hnu_hi
  · by_cases h0 : alp < 0
    · refine Or.inr ⟨h0, ?_⟩
      rw [if_pos h0]
      unfold degrees
      field_simp
      ring
    · exact Or.inl (by rw [if_neg h0])

end Wavetrace
